import Mathlib

/-!
Shallow embedding of the decision logic in
`plat/st/stm32mp1/bl2_plat_setup.c` (STM32MP1 BL2 platform setup):

* `update_monotonic_counter` — the anti-rollback monotonic counter update,
* `initialize_clock` — the operating-point (frequency/voltage) selection,
* `bl2_plat_handle_post_image_load` — the post-load image resolver
  (modelled for the `!STM32MP_USE_STM32IMAGE` build, the configuration the
  aggregate fw-config branch exists in).

External collaborators (OTP accessors, PMIC driver, clock driver, fconf,
OP-TEE header parser, context store) are modelled as environment records;
their observable side effects (regulator writes, clock initialization,
OTP programming, cache flushes, clock gating) are recorded in event
traces.  A `panic()` is modelled as the `none` result.  Machine integers
are natural numbers; 32-bit overflow is made explicit with `% 2 ^ 32`
exactly where the C performs 32-bit arithmetic.
-/

namespace Stm32Bl2

/-! ## Anti-rollback monotonic counter (`update_monotonic_counter`) -/

/-- Environment of `update_monotonic_counter`: success/failure of the OTP
collaborators.  `otp_read_ok` covers `stm32_get_otp_index` and
`stm32_get_otp_value`; `program_ok` is `bsec_program_otp` returning
`BSEC_OK`. -/
structure MonoEnv where
  otp_read_ok : Bool
  program_ok : Bool
  deriving Repr, DecidableEq

/-- Modelled from the spec: the compile-time ceiling `MAX_MONOTONIC_VALUE`
(the `CASSERT` bound on `STM32_TF_VERSION`) lives in a platform header that
is not part of this repository snapshot.  The counter is one 32-bit OTP
word, so the largest version whose bound `2 ^ V - 1` is representable is
31. -/
def MAX_MONOTONIC_VALUE : ℕ := 31

/-- `update_monotonic_counter` from `bl2_plat_setup.c`, specialized to the
decision on the persisted value `v` (a 32-bit word read from the
`MONOTONIC_OTP` fuse) and the build version `tf_version`
(`STM32_TF_VERSION`).  Returns `none` on panic, otherwise the persisted
counter value after the call together with a flag recording whether
`bsec_program_otp` was invoked.  The C guard is
`(version + 1U) < BIT(STM32_TF_VERSION)` in 32-bit unsigned arithmetic. -/
def update_monotonic_counter (e : MonoEnv) (tf_version v : ℕ) :
    Option (ℕ × Bool) :=
  if e.otp_read_ok = false then none
  else if (v + 1) % 2 ^ 32 < 2 ^ tf_version then
    if e.program_ok then some (2 ^ tf_version - 1, true) else none
  else some (v, false)

/-! ## Operating-point selection (`initialize_clock`) -/

/-- Observable effects of `initialize_clock`, in call order. -/
inductive ClkEvent where
  /-- `stm32mp1_clk_get_maxfreq_opp`: OPP search over the table restored
  from the retained context. -/
  | oppSearchRestored
  /-- `dt_get_max_opp_freqvolt`: OPP search over the device tree. -/
  | oppSearchDT
  /-- `stpmic1_regulator_voltage_set` to `mv` millivolts (the C passes
  `(uint16_t)voltage_mv`, so the argument is reduced modulo 2^16). -/
  | regSet (mv : ℕ)
  /-- `stm32mp1_clk_init` with frequency `khz`. -/
  | clkInit (khz : ℕ)
  deriving Repr, DecidableEq

/-- Environment of `initialize_clock`: the results of every external call
it can make. -/
structure ClkEnv where
  /-- `stm32mp1_is_wakeup_from_standby()` (the warm-resume flag). -/
  is_wakeup : Bool
  /-- return of `stm32_get_pll1_settings_from_context()`. -/
  pll1_ctx_ret : Int
  /-- `fdt_is_pll1_predefined()`. -/
  pll1_predefined : Bool
  /-- `stm32mp1_clk_get_maxfreq_opp`: `some (freq_khz, voltage_mv)` on
  success, `none` on nonzero return. -/
  maxfreq_opp : Option (ℕ × ℕ)
  /-- `dt_get_max_opp_freqvolt`: `some (freq_khz, voltage_mv)` on success. -/
  dt_max_opp : Option (ℕ × ℕ)
  /-- `dt_pmic_status()`; a regulator is present iff positive. -/
  pmic_status : Int
  /-- `stm32mp_get_cpu_supply_name() != NULL`. -/
  cpu_supply_name_ok : Bool
  /-- `stpmic1_regulator_voltage_get`; negative means failure. -/
  read_voltage : Int
  /-- `stpmic1_regulator_voltage_set` returned 0. -/
  volt_set_ok : Bool
  /-- `stm32mp1_clk_init freq` returned non-negative. -/
  clk_init_ok : ℕ → Bool

/-- `initialize_clock` from `bl2_plat_setup.c`.  Returns `none` on panic,
otherwise the trace of observable effects.  `freq_khz` and `voltage_mv`
start at 0; the OPP-search / voltage-programming block runs only under
`(ret == 0) && !fdt_is_pll1_predefined()`, where `ret` is the context
recovery result when waking from standby and 0 otherwise. -/
def initialize_clock (e : ClkEnv) : Option (List ClkEvent) :=
  if (if e.is_wakeup then e.pll1_ctx_ret else 0) = 0 ∧
      e.pll1_predefined = false then
    match
      (if e.is_wakeup then
        e.maxfreq_opp.map (fun p => (p.1, p.2, ClkEvent.oppSearchRestored))
      else
        e.dt_max_opp.map (fun p => (p.1, p.2, ClkEvent.oppSearchDT))) with
    | none => none
    | some (freq, volt, sev) =>
      if 0 < e.pmic_status then
        if e.cpu_supply_name_ok = false then none
        else if e.read_voltage < 0 then none
        else if volt ≠ e.read_voltage.toNat then
          if e.volt_set_ok then
            if e.clk_init_ok freq then
              some [sev, ClkEvent.regSet (volt % 2 ^ 16),
                ClkEvent.clkInit freq]
            else none
          else none
        else
          if e.clk_init_ok freq then some [sev, ClkEvent.clkInit freq]
          else none
      else
        if e.clk_init_ok freq then some [sev, ClkEvent.clkInit freq]
        else none
  else
    if e.clk_init_ok 0 then some [ClkEvent.clkInit 0] else none

/-! ## Post-load image resolver (`bl2_plat_handle_post_image_load`)

Modelled for the `!STM32MP_USE_STM32IMAGE` build (the configuration with
the aggregate `FW_CONFIG_ID` branch).  The global `bl_mem_params` table is
a record with one `MemParams` node per image identifier; the resolver
returns the C return value, the updated table and the trace of observable
side effects, or `none` when it panics. -/

/-- Image identifiers handled by the resolver. -/
inductive ImageId where
  | fw_config
  | bl32
  | bl32_extra1
  | bl32_extra2
  | bl33
  | hw_config
  | tos_fw_config
  deriving Repr, DecidableEq

/-- `image_info_t`: the region of an image plus the
`IMAGE_ATTRIB_SKIP_LOADING` bit of its header attributes. -/
structure ImageInfo where
  image_base : ℕ
  image_max_size : ℕ
  attr_skip_loading : Bool
  deriving Repr, DecidableEq

/-- `entry_point_info_t`: program counter, the first three argument words
and the `lr_svc` link register. -/
structure EpInfo where
  pc : ℕ
  arg0 : ℕ
  arg1 : ℕ
  arg2 : ℕ
  lr_svc : ℕ
  deriving Repr, DecidableEq

/-- `bl_mem_params_node_t`, restricted to the fields the resolver touches. -/
structure MemParams where
  image_info : ImageInfo
  ep_info : EpInfo
  deriving Repr, DecidableEq

/-- The global image table, one node per identifier. -/
structure BootState where
  fw_config : MemParams
  bl32 : MemParams
  bl32_extra1 : MemParams
  bl32_extra2 : MemParams
  bl33 : MemParams
  hw_config : MemParams
  tos_fw_config : MemParams
  deriving Repr, DecidableEq

/-- `get_bl_mem_params_node`. -/
def getNode (st : BootState) : ImageId → MemParams
  | .fw_config => st.fw_config
  | .bl32 => st.bl32
  | .bl32_extra1 => st.bl32_extra1
  | .bl32_extra2 => st.bl32_extra2
  | .bl33 => st.bl33
  | .hw_config => st.hw_config
  | .tos_fw_config => st.tos_fw_config

/-- Write one node of the table. -/
def setNode (st : BootState) : ImageId → MemParams → BootState
  | .fw_config, n => { st with fw_config := n }
  | .bl32, n => { st with bl32 := n }
  | .bl32_extra1, n => { st with bl32_extra1 := n }
  | .bl32_extra2, n => { st with bl32_extra2 := n }
  | .bl33, n => { st with bl33 := n }
  | .hw_config, n => { st with hw_config := n }
  | .tos_fw_config, n => { st with tos_fw_config := n }

/-- Platform layout constants (`STM32MP_DDR_BASE`, `STM32MP_DDR_S_SIZE`,
the BKPSRAM range).  Their numeric values live in platform headers outside
this repository snapshot, so they are carried as parameters. -/
structure PlatConsts where
  ddr_base : ℕ
  ddr_s_size : ℕ
  bkpsram_base : ℕ
  bkpsram_size : ℕ
  deriving Repr, DecidableEq

/-- `stm32mp1_addr_inside_backupsram`. -/
def addr_inside_backupsram (c : PlatConsts) (a : ℕ) : Bool :=
  decide (c.bkpsram_base ≤ a ∧ a < c.bkpsram_base + c.bkpsram_size)

/-- 32-bit unsigned subtraction `a - b` (two's-complement wraparound). -/
def sub32 (a b : ℕ) : ℕ := (a % 2 ^ 32 + (2 ^ 32 - b % 2 ^ 32)) % 2 ^ 32

/-- Observable effects of the resolver, in call order. -/
inductive ResolverEvent where
  /-- `clk_enable(BKPSRAM)`. -/
  | clkEnableBkpsram
  /-- `stm32_context_save_bl2_param()`. -/
  | contextSaveBl2Param
  /-- `flush_dcache_range(base, size)`. -/
  | flushDcache (base size : ℕ)
  deriving Repr, DecidableEq

/-- Environment of the resolver: the results of every external call. -/
structure ResolverEnv where
  consts : PlatConsts
  /-- `stm32mp1_ddr_is_restored()` (`wakeup_ddr_sr`, the warm-resume
  flag). -/
  wakeup_ddr_sr : Bool
  /-- `FCONF_GET_PROPERTY(dyn_cfg, dtb, id)`: `some (config_addr,
  config_max_size)` when a dtb entry exists, `none` otherwise. -/
  config_info : ImageId → Option (ℕ × ℕ)
  /-- `dt_get_ddr_size()`. -/
  ddr_size : ℕ
  /-- `get_optee_header_ep`: `some ep` when the loaded BL32 has a valid
  OP-TEE header (return 1, entry written through the out pointer),
  `none` otherwise (return 0, `pc` left untouched). -/
  optee_header_ep : Option ℕ
  /-- `stm32_pm_get_optee_ep()`: the saved secure-OS entry point. -/
  optee_ep_saved : ℕ
  /-- `parse_optee_header(&ep, &pager, &paged)`: `none` on nonzero
  return (parse error), otherwise the mutated entry point and the two
  mutated sub-component regions. -/
  parse_optee : EpInfo → ImageInfo → ImageInfo →
    Option (EpInfo × ImageInfo × ImageInfo)

/-- The fixed dependent-image set iterated by the `FW_CONFIG_ID` branch
(the `image_ids[]` array). -/
def fwConfigDeps : List ImageId :=
  [ImageId.bl32, ImageId.bl33, ImageId.hw_config, ImageId.tos_fw_config]

/-- One iteration of the `FW_CONFIG_ID` loop body for dependent image
`id`: overwrite the region with the fconf override, clear
`IMAGE_ATTRIB_SKIP_LOADING` unless resuming with the override inside DDR,
then the per-identifier switch.  Returns the mutated table and `some err`
when the C `return -EINVAL` fires (`continue` and `break` are `none`). -/
def dep_step (e : ResolverEnv) (id : ImageId) (st : BootState) :
    BootState × Option Int :=
  match e.config_info id with
  | none => (st, none)
  | some (addr, size) =>
    let n := getNode st id
    let info1 : ImageInfo :=
      { n.image_info with image_base := addr, image_max_size := size }
    let info2 : ImageInfo :=
      if e.wakeup_ddr_sr = true ∧ e.consts.ddr_base ≤ addr then info1
      else { info1 with attr_skip_loading := false }
    let st1 := setNode st id { n with image_info := info2 }
    match id with
    | .bl32 =>
      let n32 := getNode st1 .bl32
      let st2 := setNode st1 .bl32
        { n32 with ep_info := { n32.ep_info with pc := addr } }
      let np := getNode st2 .bl32_extra1
      let st3 := setNode st2 .bl32_extra1
        { np with image_info :=
          { np.image_info with image_base := addr, image_max_size := size } }
      let paged_base :=
        (e.consts.ddr_base + sub32 e.ddr_size e.consts.ddr_s_size) % 2 ^ 32
      let nq := getNode st3 .bl32_extra2
      let st4 := setNode st3 .bl32_extra2
        { nq with image_info :=
          { nq.image_info with image_base := paged_base,
                               image_max_size := e.consts.ddr_s_size } }
      (st4, none)
    | .bl33 =>
      let n33 := getNode st1 .bl33
      (setNode st1 .bl33
        { n33 with ep_info :=
          { n33.ep_info with
            pc := if e.wakeup_ddr_sr then 0 else addr } }, none)
    | .hw_config => (st1, none)
    | .tos_fw_config => (st1, none)
    | _ => (st1, some (-22))

/-- The `FW_CONFIG_ID` loop over the dependent-image list; stops at the
first `-EINVAL`. -/
def run_deps (e : ResolverEnv) : List ImageId → BootState → BootState × Int
  | [], st => (st, 0)
  | id :: rest, st =>
    match (dep_step e id st).2 with
    | some err => ((dep_step e id st).1, err)
    | none => run_deps e rest (dep_step e id st).1

/-- `bl2_plat_handle_post_image_load` from `bl2_plat_setup.c`
(`!STM32MP_USE_STM32IMAGE` build).  Returns `none` on panic, otherwise
the C return value, the updated image table and the effect trace. -/
def bl2_plat_handle_post_image_load (e : ResolverEnv) (image_id : ImageId)
    (st : BootState) : Option (Int × BootState × List ResolverEvent) :=
  match image_id with
  | .fw_config =>
    let r := run_deps e fwConfigDeps st
    some (r.2, r.1, [])
  | .bl32 =>
    let n := getNode st .bl32
    let pc0 := n.image_info.image_base
    match e.optee_header_ep with
    | some hep =>
      if e.wakeup_ddr_sr then
        let pc1 := e.optee_ep_saved
        let st1 := setNode st .bl32
          { n with ep_info := { n.ep_info with pc := pc1 } }
        let evs :=
          if addr_inside_backupsram e.consts pc1 then
            [ResolverEvent.clkEnableBkpsram]
          else []
        some (0, st1, evs)
      else
        match e.parse_optee { n.ep_info with pc := hep }
            (getNode st .bl32_extra1).image_info
            (getNode st .bl32_extra2).image_info with
        | none => none
        | some (ep2, pag2, paged2) =>
          let ep3 :=
            { ep2 with arg0 := paged2.image_base, arg1 := 0, arg2 := 0 }
          let st1 := setNode st .bl32 { n with ep_info := ep3 }
          let np := getNode st1 .bl32_extra1
          let st2 := setNode st1 .bl32_extra1 { np with image_info := pag2 }
          let nq := getNode st2 .bl32_extra2
          let st3 := setNode st2 .bl32_extra2 { nq with image_info := paged2 }
          let evs :=
            if e.consts.ddr_base ≤ ep3.pc then
              [ResolverEvent.contextSaveBl2Param]
            else []
          some (0, st3, evs)
    | none =>
      let newsize :=
        (n.image_info.image_max_size +
         (getNode st .tos_fw_config).image_info.image_max_size) % 2 ^ 32
      let st1 := setNode st .bl32
        { n with
          image_info := { n.image_info with image_max_size := newsize },
          ep_info := { n.ep_info with pc := pc0, arg0 := 0 } }
      let evs :=
        if e.consts.ddr_base ≤ pc0 then
          [ResolverEvent.contextSaveBl2Param]
        else []
      some (0, st1, evs)
  | .bl33 =>
    let n32 := getNode st .bl32
    let n33 := getNode st .bl33
    let st1 := setNode st .bl32
      { n32 with ep_info := { n32.ep_info with lr_svc := n33.ep_info.pc } }
    some (0, st1,
      [ResolverEvent.flushDcache n33.image_info.image_base
        n33.image_info.image_max_size])
  | _ => some (0, st, [])

/-- Whether a clock event is one of the two OPP-table searches. -/
def ClkEvent.isSearch : ClkEvent → Bool
  | .oppSearchRestored => true
  | .oppSearchDT => true
  | _ => false

/-- Whether a clock event is a regulator voltage write. -/
def ClkEvent.isRegSet : ClkEvent → Bool
  | .regSet _ => true
  | _ => false

/-- Whether a clock event applies a frequency to the clock subsystem. -/
def ClkEvent.isClkInit : ClkEvent → Bool
  | .clkInit _ => true
  | _ => false

/-! ## Theorems about the monotonic counter -/

/-- C1, counterexample: at the persisted value `v = 2 ^ 32 - 1` (a fully
blown fuse word) and version `V = 1`, the mathematical bound
`v + 1 ≥ 2 ^ V` holds on entry, yet the code programs the OTP slot: the
C guard `(version + 1U) < BIT(STM32_TF_VERSION)` wraps `v + 1` to 0 in
32-bit arithmetic.  So the claim's "no write once the bound is satisfied"
is false as stated. -/
theorem update_monotonic_counter_no_write_cex :
    2 ^ 1 ≤ 4294967295 + 1 ∧
    update_monotonic_counter ⟨true, true⟩ 1 4294967295 =
      some (1, true) := by
  constructor
  · decide
  · decide

/-- C1 (amended): for every persisted 32-bit counter value `v` and version
`V ≤ MAX_MONOTONIC_VALUE`, a completed run of `update_monotonic_counter`
leaves the persisted counter at least `2 ^ V - 1`; if on entry
`(v + 1) mod 2 ^ 32 ≥ 2 ^ V` (the guard the code evaluates) no OTP write
is performed and the value is unchanged; and a repeated invocation with
the same or a lower version leaves the counter unchanged and never
triggers a second write. -/
theorem update_monotonic_counter_props (e : MonoEnv) (V v v2 : ℕ) (w : Bool)
    (hV : V ≤ MAX_MONOTONIC_VALUE) (hv : v < 2 ^ 32)
    (h : update_monotonic_counter e V v = some (v2, w)) :
    2 ^ V - 1 ≤ v2 ∧
    (2 ^ V ≤ (v + 1) % 2 ^ 32 → w = false ∧ v2 = v) ∧
    (∀ V2, V2 ≤ V →
      update_monotonic_counter e V2 v2 = some (v2, false)) := by
  have hp1 : (1 : ℕ) ≤ 2 ^ V := Nat.one_le_two_pow
  have hp2 : 2 ^ V ≤ 2 ^ 31 :=
    Nat.pow_le_pow_right (by norm_num) hV
  have hp32 : 2 ^ V < 2 ^ 32 := lt_of_le_of_lt hp2 (by norm_num)
  unfold update_monotonic_counter at h
  by_cases hr : e.otp_read_ok = false
  · simp [hr] at h
  · rw [if_neg hr] at h
    by_cases hc : (v + 1) % 2 ^ 32 < 2 ^ V
    · rw [if_pos hc] at h
      by_cases hpk : e.program_ok = true
      · rw [if_pos hpk] at h
        rw [Option.some.injEq, Prod.mk.injEq] at h
        obtain ⟨h1, h2⟩ := h
        subst h1; subst h2
        refine ⟨le_refl _, fun habs => absurd hc (by omega), ?_⟩
        intro V2 hV2
        have hq : 2 ^ V2 ≤ 2 ^ V :=
          Nat.pow_le_pow_right (by norm_num) hV2
        unfold update_monotonic_counter
        rw [if_neg hr, if_neg]
        have hsum : 2 ^ V - 1 + 1 = 2 ^ V := by omega
        rw [hsum, Nat.mod_eq_of_lt hp32]
        omega
      · rw [if_neg hpk] at h
        exact absurd h (by simp)
    · rw [if_neg hc] at h
      rw [Option.some.injEq, Prod.mk.injEq] at h
      obtain ⟨h1, h2⟩ := h
      subst h1; subst h2
      have hlt : v + 1 < 2 ^ 32 := by
        by_contra hge
        have heq : v + 1 = 2 ^ 32 := by omega
        rw [heq, Nat.mod_self] at hc
        omega
      rw [Nat.mod_eq_of_lt hlt] at hc
      refine ⟨by omega, fun _ => ⟨rfl, rfl⟩, ?_⟩
      intro V2 hV2
      have hq : 2 ^ V2 ≤ 2 ^ V :=
        Nat.pow_le_pow_right (by norm_num) hV2
      unfold update_monotonic_counter
      rw [if_neg hr, if_neg]
      rw [Nat.mod_eq_of_lt hlt]
      omega

/-- Witness for `update_monotonic_counter_props` at `V = 4`, `v = 3`. -/
theorem update_monotonic_counter_props_witness :
    ((4 : ℕ) ≤ MAX_MONOTONIC_VALUE ∧ (3 : ℕ) < 2 ^ 32 ∧
      update_monotonic_counter ⟨true, true⟩ 4 3 = some (15, true)) ∧
    (2 ^ 4 - 1 ≤ 15 ∧
      (2 ^ 4 ≤ (3 + 1) % 2 ^ 32 → true = false ∧ 15 = 3) ∧
      (∀ V2, V2 ≤ 4 →
        update_monotonic_counter ⟨true, true⟩ V2 15 = some (15, false))) :=
  ⟨⟨by decide, by decide, by decide⟩,
    update_monotonic_counter_props ⟨true, true⟩ 4 3 15 true (by decide)
      (by decide) (by decide)⟩

/-! ## Theorems about the operating-point selection -/

/-- Every completed run of `initialize_clock` produces one of three trace
shapes: a bare frequency apply, a search followed by a frequency apply, or
a search, a regulator write and a frequency apply. -/
theorem initialize_clock_trace_shapes (e : ClkEnv) (tr : List ClkEvent)
    (h : initialize_clock e = some tr) :
    tr = [ClkEvent.clkInit 0] ∨
    (∃ sev f v,
      (sev = ClkEvent.oppSearchRestored ∨ sev = ClkEvent.oppSearchDT) ∧
      (tr = [sev, ClkEvent.clkInit f] ∨
       tr = [sev, ClkEvent.regSet v, ClkEvent.clkInit f])) := by
  unfold initialize_clock at h
  by_cases h1 :
      (if e.is_wakeup then e.pll1_ctx_ret else 0) = 0 ∧
        e.pll1_predefined = false
  · rw [if_pos h1] at h
    set srch :=
      (if e.is_wakeup then
        e.maxfreq_opp.map (fun p => (p.1, p.2, ClkEvent.oppSearchRestored))
      else
        e.dt_max_opp.map (fun p => (p.1, p.2, ClkEvent.oppSearchDT)))
      with hsrch
    have hshape : srch = none ∨
        ∃ f v, srch = some (f, v, ClkEvent.oppSearchRestored) ∨
               srch = some (f, v, ClkEvent.oppSearchDT) := by
      rw [hsrch]
      by_cases hw : e.is_wakeup = true
      · cases hopp : e.maxfreq_opp with
        | none => simp [hw, hopp]
        | some p => right; exact ⟨p.1, p.2, Or.inl (by simp [hw, hopp])⟩
      · cases hopp : e.dt_max_opp with
        | none => simp [Bool.not_eq_true] at hw; simp [hw, hopp]
        | some p =>
          simp only [Bool.not_eq_true] at hw
          right; exact ⟨p.1, p.2, Or.inr (by simp [hw, hopp])⟩
    rcases hshape with hnone | ⟨f, v, hsome⟩
    · rw [hnone] at h; exact absurd h (by simp)
    · have hmain : ∀ sev,
          (sev = ClkEvent.oppSearchRestored ∨ sev = ClkEvent.oppSearchDT) →
          srch = some (f, v, sev) →
          tr = [ClkEvent.clkInit 0] ∨
          (∃ sev2 f2 v2,
            (sev2 = ClkEvent.oppSearchRestored ∨
             sev2 = ClkEvent.oppSearchDT) ∧
            (tr = [sev2, ClkEvent.clkInit f2] ∨
             tr = [sev2, ClkEvent.regSet v2, ClkEvent.clkInit f2])) := by
        intro sev hsev heq
        rw [heq] at h
        simp only [] at h
        by_cases hpm : 0 < e.pmic_status
        · rw [if_pos hpm] at h
          by_cases hnm : e.cpu_supply_name_ok = false
          · rw [if_pos hnm] at h; exact absurd h (by simp)
          · rw [if_neg hnm] at h
            by_cases hrv : e.read_voltage < 0
            · rw [if_pos hrv] at h; exact absurd h (by simp)
            · rw [if_neg hrv] at h
              by_cases hdiff : v ≠ e.read_voltage.toNat
              · rw [if_pos hdiff] at h
                by_cases hset : e.volt_set_ok = true
                · rw [if_pos hset] at h
                  by_cases hclk : e.clk_init_ok f = true
                  · rw [if_pos hclk] at h
                    right
                    exact ⟨sev, f, v % 2 ^ 16, hsev, Or.inr
                      (Option.some.inj h).symm⟩
                  · rw [if_neg hclk] at h; exact absurd h (by simp)
                · rw [if_neg hset] at h; exact absurd h (by simp)
              · rw [if_neg hdiff] at h
                by_cases hclk : e.clk_init_ok f = true
                · rw [if_pos hclk] at h
                  right
                  exact ⟨sev, f, v, hsev, Or.inl (Option.some.inj h).symm⟩
                · rw [if_neg hclk] at h; exact absurd h (by simp)
        · rw [if_neg hpm] at h
          by_cases hclk : e.clk_init_ok f = true
          · rw [if_pos hclk] at h
            right
            exact ⟨sev, f, v, hsev, Or.inl (Option.some.inj h).symm⟩
          · rw [if_neg hclk] at h; exact absurd h (by simp)
      rcases hsome with hR | hD
      · exact hmain ClkEvent.oppSearchRestored (Or.inl rfl) hR
      · exact hmain ClkEvent.oppSearchDT (Or.inr rfl) hD
  · rw [if_neg h1] at h
    by_cases hclk : e.clk_init_ok 0 = true
    · rw [if_pos hclk] at h
      exact Or.inl (Option.some.inj h).symm
    · rw [if_neg hclk] at h; exact absurd h (by simp)

/-- A warm-resume environment whose PLL1 settings are not predefined in
the device tree: context recovery succeeds and the restored OPP table
holds a single point. -/
def warmSearchEnv : ClkEnv :=
  ⟨true, 0, false, some (650000, 1250), none, 0, false, 0, false,
    fun _ => true⟩

/-- A warm-resume environment with PLL1 settings predefined in the device
tree. -/
def warmPredefEnv : ClkEnv :=
  ⟨true, 0, true, none, none, 0, false, 0, false, fun _ => true⟩

/-- A warm-resume environment whose context recovery fails (nonzero
return). -/
def warmCtxFailEnv : ClkEnv :=
  ⟨true, -3, false, some (650000, 1250), none, 0, false, 0, false,
    fun _ => true⟩

/-- The cold-boot environment of the spec's end-to-end scenario: no
predefined point, best device-tree point (1200000 kHz, 1350 mV), PMIC
present, regulator currently reading 1200 mV, all writes succeed. -/
def coldBootEnv : ClkEnv :=
  ⟨false, 0, false, none, some (1200000, 1350), 1, true, 1200, true,
    fun _ => true⟩

/-- C3, counterexample: on a warm resume whose context recovery succeeds
and whose PLL1 settings are not predefined in the device tree,
`initialize_clock` does run an OPP-table search
(`stm32mp1_clk_get_maxfreq_opp` over the structure restored in RAM), so
the claim that the warm-resume path never performs a frequency-table
search is false as stated. -/
theorem initialize_clock_warm_search_cex :
    warmSearchEnv.is_wakeup = true ∧
    initialize_clock warmSearchEnv =
      some [ClkEvent.oppSearchRestored, ClkEvent.clkInit 650000] ∧
    ClkEvent.isSearch ClkEvent.oppSearchRestored = true := by
  refine ⟨rfl, by decide, rfl⟩

/-- C3 (amended): on a warm resume `initialize_clock` never searches the
device-tree OPP table; when the device tree predefines the PLL1 settings,
or when context recovery fails, it performs no OPP search at all and
initializes the clock with the restored settings (frequency argument 0);
otherwise the single search it performs is over the OPP table restored
from the retained context. -/
theorem initialize_clock_warm_resume_search (e : ClkEnv)
    (tr : List ClkEvent) (hwk : e.is_wakeup = true)
    (h : initialize_clock e = some tr) :
    ClkEvent.oppSearchDT ∉ tr ∧
    (e.pll1_predefined = true → tr = [ClkEvent.clkInit 0]) ∧
    (e.pll1_ctx_ret ≠ 0 → tr = [ClkEvent.clkInit 0]) ∧
    (e.pll1_ctx_ret = 0 → e.pll1_predefined = false →
      ClkEvent.oppSearchRestored ∈ tr) := by
  have hif : (if e.is_wakeup = true then e.pll1_ctx_ret else 0) =
      e.pll1_ctx_ret := if_pos hwk
  unfold initialize_clock at h
  by_cases hcond :
      (if e.is_wakeup = true then e.pll1_ctx_ret else 0) = 0 ∧
        e.pll1_predefined = false
  · have hret0 : e.pll1_ctx_ret = 0 := by rw [← hif]; exact hcond.1
    rw [if_pos hcond] at h
    rw [if_pos hwk] at h
    cases hopp : e.maxfreq_opp with
    | none => rw [hopp] at h; exact absurd h (by simp)
    | some p =>
      rw [hopp] at h
      simp only [Option.map_some'] at h
      by_cases hpm : 0 < e.pmic_status
      · rw [if_pos hpm] at h
        by_cases hnm : e.cpu_supply_name_ok = false
        · rw [if_pos hnm] at h; exact absurd h (by simp)
        · rw [if_neg hnm] at h
          by_cases hrv : e.read_voltage < 0
          · rw [if_pos hrv] at h; exact absurd h (by simp)
          · rw [if_neg hrv] at h
            by_cases hdiff : p.2 ≠ e.read_voltage.toNat
            · rw [if_pos hdiff] at h
              by_cases hset : e.volt_set_ok = true
              · rw [if_pos hset] at h
                by_cases hclk : e.clk_init_ok p.1 = true
                · rw [if_pos hclk] at h
                  have htr := (Option.some.inj h).symm
                  subst htr
                  refine ⟨by simp, ?_, ?_, fun _ _ => by simp⟩
                  · intro hpre; rw [hpre] at hcond; simp at hcond
                  · intro hret; exact absurd hret0 hret
                · rw [if_neg hclk] at h; exact absurd h (by simp)
              · rw [if_neg hset] at h; exact absurd h (by simp)
            · rw [if_neg hdiff] at h
              by_cases hclk : e.clk_init_ok p.1 = true
              · rw [if_pos hclk] at h
                have htr := (Option.some.inj h).symm
                subst htr
                refine ⟨by simp, ?_, ?_, fun _ _ => by simp⟩
                · intro hpre; rw [hpre] at hcond; simp at hcond
                · intro hret; exact absurd hret0 hret
              · rw [if_neg hclk] at h; exact absurd h (by simp)
      · rw [if_neg hpm] at h
        by_cases hclk : e.clk_init_ok p.1 = true
        · rw [if_pos hclk] at h
          have htr := (Option.some.inj h).symm
          subst htr
          refine ⟨by simp, ?_, ?_, fun _ _ => by simp⟩
          · intro hpre; rw [hpre] at hcond; simp at hcond
          · intro hret; exact absurd hret0 hret
        · rw [if_neg hclk] at h; exact absurd h (by simp)
  · rw [if_neg hcond] at h
    by_cases hclk : e.clk_init_ok 0 = true
    · rw [if_pos hclk] at h
      have htr := (Option.some.inj h).symm
      subst htr
      refine ⟨by simp, fun _ => rfl, fun _ => rfl, ?_⟩
      intro hret hpre
      exact absurd ⟨by rw [hif]; exact hret, hpre⟩ hcond
    · rw [if_neg hclk] at h; exact absurd h (by simp)

/-- Witness for `initialize_clock_warm_resume_search` on `warmPredefEnv`. -/
theorem initialize_clock_warm_resume_search_witness :
    (warmPredefEnv.is_wakeup = true ∧
      initialize_clock warmPredefEnv = some [ClkEvent.clkInit 0]) ∧
    (ClkEvent.oppSearchDT ∉ [ClkEvent.clkInit 0] ∧
      (warmPredefEnv.pll1_predefined = true →
        [ClkEvent.clkInit 0] = [ClkEvent.clkInit 0]) ∧
      (warmPredefEnv.pll1_ctx_ret ≠ 0 →
        [ClkEvent.clkInit 0] = [ClkEvent.clkInit 0]) ∧
      (warmPredefEnv.pll1_ctx_ret = 0 →
        warmPredefEnv.pll1_predefined = false →
        ClkEvent.oppSearchRestored ∈ [ClkEvent.clkInit 0])) :=
  ⟨⟨rfl, by decide⟩,
    initialize_clock_warm_resume_search warmPredefEnv
      [ClkEvent.clkInit 0] rfl (by decide)⟩

/-- C4: on the search path with a regulator present, a regulator write is
issued iff the read-back voltage differs from the required voltage of the
selected operating point; when they are equal no regulator write occurs. -/
theorem initialize_clock_regulator_write_iff (e : ClkEnv)
    (tr : List ClkEvent) (f v : ℕ)
    (hret : (if e.is_wakeup = true then e.pll1_ctx_ret else 0) = 0)
    (hpre : e.pll1_predefined = false)
    (hsel : (if e.is_wakeup = true then e.maxfreq_opp else e.dt_max_opp) =
      some (f, v))
    (hpm : 0 < e.pmic_status)
    (h : initialize_clock e = some tr) :
    ((∃ mv, ClkEvent.regSet mv ∈ tr) ↔ v ≠ e.read_voltage.toNat) ∧
    (v = e.read_voltage.toNat → ∀ mv, ClkEvent.regSet mv ∉ tr) := by
  unfold initialize_clock at h
  rw [if_pos ⟨hret, hpre⟩] at h
  have hsev : ∀ sev : ClkEvent, sev.isRegSet = false →
      (match (some (f, v, sev) : Option (ℕ × ℕ × ClkEvent)) with
        | none => (none : Option (List ClkEvent))
        | some (freq, volt, sev) =>
          if 0 < e.pmic_status then
            if e.cpu_supply_name_ok = false then none
            else if e.read_voltage < 0 then none
            else if volt ≠ e.read_voltage.toNat then
              if e.volt_set_ok then
                if e.clk_init_ok freq then
                  some [sev, ClkEvent.regSet (volt % 2 ^ 16),
                    ClkEvent.clkInit freq]
                else none
              else none
            else
              if e.clk_init_ok freq then some [sev, ClkEvent.clkInit freq]
              else none
          else
            if e.clk_init_ok freq then some [sev, ClkEvent.clkInit freq]
            else none) = some tr →
      ((∃ mv, ClkEvent.regSet mv ∈ tr) ↔ v ≠ e.read_voltage.toNat) ∧
      (v = e.read_voltage.toNat → ∀ mv, ClkEvent.regSet mv ∉ tr) := by
    intro sev hnr h
    simp only [] at h
    rw [if_pos hpm] at h
    by_cases hnm : e.cpu_supply_name_ok = false
    · rw [if_pos hnm] at h; exact absurd h (by simp)
    · rw [if_neg hnm] at h
      by_cases hrv : e.read_voltage < 0
      · rw [if_pos hrv] at h; exact absurd h (by simp)
      · rw [if_neg hrv] at h
        by_cases hdiff : v ≠ e.read_voltage.toNat
        · rw [if_pos hdiff] at h
          by_cases hset : e.volt_set_ok = true
          · rw [if_pos hset] at h
            by_cases hclk : e.clk_init_ok f = true
            · rw [if_pos hclk] at h
              have htr := (Option.some.inj h).symm
              subst htr
              refine ⟨⟨fun _ => hdiff, fun _ => ⟨v % 2 ^ 16, by simp⟩⟩, ?_⟩
              intro heq; exact absurd heq hdiff
            · rw [if_neg hclk] at h; exact absurd h (by simp)
          · rw [if_neg hset] at h; exact absurd h (by simp)
        · rw [if_neg hdiff] at h
          by_cases hclk : e.clk_init_ok f = true
          · rw [if_pos hclk] at h
            have htr := (Option.some.inj h).symm
            subst htr
            constructor
            · constructor
              · rintro ⟨mv, hmem⟩
                rcases List.mem_cons.mp hmem with hm1 | hm2
                · rw [← hm1] at hnr; simp [ClkEvent.isRegSet] at hnr
                · simp at hm2
              · intro hd; exact absurd hd hdiff
            · intro _ mv hmem
              rcases List.mem_cons.mp hmem with hm1 | hm2
              · rw [← hm1] at hnr; simp [ClkEvent.isRegSet] at hnr
              · simp at hm2
          · rw [if_neg hclk] at h; exact absurd h (by simp)
  by_cases hw : e.is_wakeup = true
  · rw [if_pos hw] at h
    rw [if_pos hw] at hsel
    rw [hsel] at h
    simp only [Option.map_some'] at h
    exact hsev ClkEvent.oppSearchRestored rfl h
  · rw [if_neg hw] at h
    rw [if_neg hw] at hsel
    rw [hsel] at h
    simp only [Option.map_some'] at h
    exact hsev ClkEvent.oppSearchDT rfl h

/-- Witness for `initialize_clock_regulator_write_iff` on the spec's
cold-boot scenario (selected point 1200000 kHz / 1350 mV, regulator
reading 1200 mV). -/
theorem initialize_clock_regulator_write_iff_witness :
    ((if coldBootEnv.is_wakeup = true then coldBootEnv.pll1_ctx_ret
        else 0) = 0 ∧
      coldBootEnv.pll1_predefined = false ∧
      (if coldBootEnv.is_wakeup = true then coldBootEnv.maxfreq_opp
        else coldBootEnv.dt_max_opp) = some (1200000, 1350) ∧
      0 < coldBootEnv.pmic_status ∧
      initialize_clock coldBootEnv =
        some [ClkEvent.oppSearchDT, ClkEvent.regSet 1350,
          ClkEvent.clkInit 1200000]) ∧
    (((∃ mv, ClkEvent.regSet mv ∈
        [ClkEvent.oppSearchDT, ClkEvent.regSet 1350,
          ClkEvent.clkInit 1200000]) ↔
      (1350 : ℕ) ≠ coldBootEnv.read_voltage.toNat) ∧
      ((1350 : ℕ) = coldBootEnv.read_voltage.toNat →
        ∀ mv, ClkEvent.regSet mv ∉
          [ClkEvent.oppSearchDT, ClkEvent.regSet 1350,
            ClkEvent.clkInit 1200000])) :=
  ⟨⟨by decide, by decide, by decide, by decide, by decide⟩,
    initialize_clock_regulator_write_iff coldBootEnv
      [ClkEvent.oppSearchDT, ClkEvent.regSet 1350, ClkEvent.clkInit 1200000]
      1200000 1350 (by decide) (by decide) (by decide) (by decide)
      (by decide)⟩

/-- C5: in every completed run of `initialize_clock` in which both a
regulator voltage write and a clock-frequency apply occur, the voltage
write occurs at a strictly earlier position of the effect trace than the
frequency apply. -/
theorem initialize_clock_voltage_before_frequency (e : ClkEnv)
    (tr : List ClkEvent) (h : initialize_clock e = some tr) (i j : ℕ)
    (hri : ∃ mv, tr.get? i = some (ClkEvent.regSet mv))
    (hcj : ∃ f, tr.get? j = some (ClkEvent.clkInit f)) : i < j := by
  obtain ⟨mv, hri⟩ := hri
  obtain ⟨fj, hcj⟩ := hcj
  rcases initialize_clock_trace_shapes e tr h with
    htr | ⟨sev, f, v, hsev, htr | htr⟩
  · subst htr
    rcases i with _ | i <;> simp [List.get?] at hri
  · subst htr
    rcases hsev with rfl | rfl <;>
      rcases i with _ | _ | i <;> simp [List.get?] at hri
  · subst htr
    rcases hsev with rfl | rfl <;>
      rcases i with _ | _ | _ | i <;>
      rcases j with _ | _ | _ | j <;>
      ((simp [List.get?] at hri hcj) <;> omega)

/-- Witness for `initialize_clock_voltage_before_frequency` on the spec's
cold-boot scenario: the write of 1350 mV at position 1 precedes the
1200000 kHz apply at position 2. -/
theorem initialize_clock_voltage_before_frequency_witness :
    (initialize_clock coldBootEnv =
      some [ClkEvent.oppSearchDT, ClkEvent.regSet 1350,
        ClkEvent.clkInit 1200000] ∧
      (∃ mv, [ClkEvent.oppSearchDT, ClkEvent.regSet 1350,
        ClkEvent.clkInit 1200000].get? 1 = some (ClkEvent.regSet mv)) ∧
      (∃ f, [ClkEvent.oppSearchDT, ClkEvent.regSet 1350,
        ClkEvent.clkInit 1200000].get? 2 = some (ClkEvent.clkInit f))) ∧
    1 < 2 :=
  ⟨⟨by decide, ⟨1350, by decide⟩, ⟨1200000, by decide⟩⟩,
    initialize_clock_voltage_before_frequency coldBootEnv
      [ClkEvent.oppSearchDT, ClkEvent.regSet 1350, ClkEvent.clkInit 1200000]
      (by decide) 1 2 ⟨1350, by decide⟩ ⟨1200000, by decide⟩⟩

/-- C10: on a warm resume whose PLL1-settings context recovery fails
(nonzero return), the whole OPP-search / voltage-programming block is
skipped and the clock subsystem is initialized with frequency 0; the
recovery failure itself does not halt the boot. -/
theorem initialize_clock_ctx_fail_skips_search (e : ClkEnv)
    (hwk : e.is_wakeup = true) (hret : e.pll1_ctx_ret ≠ 0)
    (hclk : e.clk_init_ok 0 = true) :
    initialize_clock e = some [ClkEvent.clkInit 0] := by
  unfold initialize_clock
  rw [if_neg, if_pos hclk]
  intro hc
  rw [if_pos hwk] at hc
  exact hret hc.1

/-- Witness for `initialize_clock_ctx_fail_skips_search` on
`warmCtxFailEnv`. -/
theorem initialize_clock_ctx_fail_skips_search_witness :
    (warmCtxFailEnv.is_wakeup = true ∧ warmCtxFailEnv.pll1_ctx_ret ≠ 0 ∧
      warmCtxFailEnv.clk_init_ok 0 = true) ∧
    initialize_clock warmCtxFailEnv = some [ClkEvent.clkInit 0] :=
  ⟨⟨rfl, by decide, rfl⟩,
    initialize_clock_ctx_fail_skips_search warmCtxFailEnv rfl (by decide)
      rfl⟩

/-! ## Helper lemmas about the resolver -/

/-- A dependent image inside the fixed set never makes the
`FW_CONFIG_ID` loop body return an error. -/
theorem dep_step_no_err (e : ResolverEnv) (id : ImageId) (st : BootState)
    (h : id ∈ fwConfigDeps) : (dep_step e id st).2 = none := by
  rcases hc : e.config_info id with _ | ⟨a, s⟩ <;>
    fin_cases h <;> simp [dep_step, hc]

/-- One loop-body iteration for a dependent image only writes the nodes it
owns: any other node of the fixed set is untouched. -/
theorem dep_step_frame (e : ResolverEnv) (id id2 : ImageId) (st : BootState)
    (h1 : id ∈ fwConfigDeps) (h2 : id2 ∈ fwConfigDeps) (hne : id ≠ id2) :
    getNode (dep_step e id st).1 id2 = getNode st id2 := by
  rcases hc : e.config_info id with _ | ⟨a, s⟩ <;>
    fin_cases h1 <;> fin_cases h2 <;>
    first
      | exact absurd rfl hne
      | simp [dep_step, hc, getNode, setNode]

/-- The skip-reload attribute a loop-body iteration leaves on its own
image: unchanged when resuming with the override inside DDR, cleared
otherwise. -/
theorem dep_step_attr_self (e : ResolverEnv) (id : ImageId) (st : BootState)
    (a s : ℕ) (h1 : id ∈ fwConfigDeps)
    (hc : e.config_info id = some (a, s)) :
    (getNode (dep_step e id st).1 id).image_info.attr_skip_loading =
      if e.wakeup_ddr_sr = true ∧ e.consts.ddr_base ≤ a then
        (getNode st id).image_info.attr_skip_loading
      else false := by
  fin_cases h1 <;>
    (simp only [dep_step, hc, getNode, setNode]; split_ifs <;> rfl)

/-- The program counter a `BL33_IMAGE_ID` loop-body iteration leaves on
the next-stage image. -/
theorem dep_step_bl33_pc (e : ResolverEnv) (st : BootState) (a s : ℕ)
    (hc : e.config_info ImageId.bl33 = some (a, s)) :
    (getNode (dep_step e ImageId.bl33 st).1 ImageId.bl33).ep_info.pc =
      if e.wakeup_ddr_sr = true then 0 else a := by
  simp [dep_step, hc, getNode, setNode]

/-- The `FW_CONFIG_ID` loop over the fixed dependent-image set runs all
four iterations and returns 0. -/
theorem run_deps_fw (e : ResolverEnv) (st : BootState) :
    run_deps e fwConfigDeps st =
      ((dep_step e ImageId.tos_fw_config
        (dep_step e ImageId.hw_config
          (dep_step e ImageId.bl33
            (dep_step e ImageId.bl32 st).1).1).1).1, 0) := by
  have h1 := dep_step_no_err e ImageId.bl32 st (by decide)
  have h2 := dep_step_no_err e ImageId.bl33
    (dep_step e ImageId.bl32 st).1 (by decide)
  have h3 := dep_step_no_err e ImageId.hw_config
    (dep_step e ImageId.bl33 (dep_step e ImageId.bl32 st).1).1 (by decide)
  have h4 := dep_step_no_err e ImageId.tos_fw_config
    (dep_step e ImageId.hw_config
      (dep_step e ImageId.bl33 (dep_step e ImageId.bl32 st).1).1).1
    (by decide)
  simp only [fwConfigDeps, run_deps, h1, h2, h3, h4]

/-! ## Concrete environments and states used by witnesses -/

/-- A typical platform layout: DDR at 0xC0000000, a 16 MiB secure DDR
region, BKPSRAM at 0x54000000 with 4 KiB. -/
def demoConsts : PlatConsts := ⟨3221225472, 16777216, 1409286144, 4096⟩

/-- Fconf overrides: the secure-OS and next-stage images point into DDR,
the hardware-config override lies below DDR, no secure-OS-config entry,
and (for exercising the error path) entries exist for identifiers outside
the fixed set. -/
def demoCfg : ImageId → Option (ℕ × ℕ)
  | ImageId.bl32 => some (3489660928, 33554432)
  | ImageId.bl33 => some (3221225472, 1048576)
  | ImageId.hw_config => some (100, 256)
  | ImageId.tos_fw_config => none
  | _ => some (7, 7)

/-- A warm-resume resolver environment whose loaded BL32 is a plain image
(no OP-TEE header). -/
def demoEnv : ResolverEnv :=
  ⟨demoConsts, true, demoCfg, 1073741824, none, 0, fun _ _ _ => none⟩

/-- An all-zero node with the skip-reload attribute set. -/
def demoNode : MemParams := ⟨⟨0, 0, true⟩, ⟨0, 0, 0, 0, 0⟩⟩

/-- An image table of identical plain nodes. -/
def demoSt : BootState :=
  ⟨demoNode, demoNode, demoNode, demoNode, demoNode, demoNode, demoNode⟩

/-- The spec's warm-resume secure-OS scenario: backup memory
[0x40000000, 0x40010000), OP-TEE header found, saved entry point
0x40001000. -/
def warmOpteeEnv : ResolverEnv :=
  ⟨⟨3221225472, 16777216, 1073741824, 65536⟩, true, fun _ => none, 0,
    some 123, 1073745920, fun _ _ _ => none⟩

/-! ## Theorems about the resolver -/

/-- C2: in the aggregate fw-config branch, for every dependent image of
the fixed set with an fconf override `(a, s)`, the final skip-reload
attribute is the old one when `wakeup_ddr_sr` holds and the override base
is at or above the DDR base, and is cleared otherwise — i.e. it is
cleared iff NOT(warm resume AND base inside retained memory). -/
theorem fw_config_skip_reload_iff (e : ResolverEnv) (st : BootState)
    (id : ImageId) (a s : ℕ) (hid : id ∈ fwConfigDeps)
    (hc : e.config_info id = some (a, s)) :
    ∃ st1, bl2_plat_handle_post_image_load e ImageId.fw_config st =
        some (0, st1, []) ∧
      (getNode st1 id).image_info.attr_skip_loading =
        (if e.wakeup_ddr_sr = true ∧ e.consts.ddr_base ≤ a then
          (getNode st id).image_info.attr_skip_loading
        else false) := by
  have hrun := run_deps_fw e st
  refine ⟨_, by simp only [bl2_plat_handle_post_image_load]; rw [hrun], ?_⟩
  fin_cases hid
  · rw [dep_step_frame e ImageId.tos_fw_config ImageId.bl32 _ (by decide)
        (by decide) (by decide),
      dep_step_frame e ImageId.hw_config ImageId.bl32 _ (by decide)
        (by decide) (by decide),
      dep_step_frame e ImageId.bl33 ImageId.bl32 _ (by decide) (by decide)
        (by decide),
      dep_step_attr_self e ImageId.bl32 st a s (by decide) hc]
  · rw [dep_step_frame e ImageId.tos_fw_config ImageId.bl33 _ (by decide)
        (by decide) (by decide),
      dep_step_frame e ImageId.hw_config ImageId.bl33 _ (by decide)
        (by decide) (by decide),
      dep_step_attr_self e ImageId.bl33 _ a s (by decide) hc,
      dep_step_frame e ImageId.bl32 ImageId.bl33 st (by decide) (by decide)
        (by decide)]
  · rw [dep_step_frame e ImageId.tos_fw_config ImageId.hw_config _
        (by decide) (by decide) (by decide),
      dep_step_attr_self e ImageId.hw_config _ a s (by decide) hc,
      dep_step_frame e ImageId.bl33 ImageId.hw_config _ (by decide)
        (by decide) (by decide),
      dep_step_frame e ImageId.bl32 ImageId.hw_config st (by decide)
        (by decide) (by decide)]
  · rw [dep_step_attr_self e ImageId.tos_fw_config _ a s (by decide) hc,
      dep_step_frame e ImageId.hw_config ImageId.tos_fw_config _
        (by decide) (by decide) (by decide),
      dep_step_frame e ImageId.bl33 ImageId.tos_fw_config _ (by decide)
        (by decide) (by decide),
      dep_step_frame e ImageId.bl32 ImageId.tos_fw_config st (by decide)
        (by decide) (by decide)]

/-- Witness for `fw_config_skip_reload_iff`: warm resume with the
hardware-config override below DDR, so its attribute is cleared. -/
theorem fw_config_skip_reload_iff_witness :
    (ImageId.hw_config ∈ fwConfigDeps ∧
      demoEnv.config_info ImageId.hw_config = some (100, 256)) ∧
    (∃ st1,
      bl2_plat_handle_post_image_load demoEnv ImageId.fw_config demoSt =
        some (0, st1, []) ∧
      (getNode st1 ImageId.hw_config).image_info.attr_skip_loading =
        (if demoEnv.wakeup_ddr_sr = true ∧
            demoEnv.consts.ddr_base ≤ 100 then
          (getNode demoSt ImageId.hw_config).image_info.attr_skip_loading
        else false)) :=
  ⟨⟨by decide, by decide⟩,
    fw_config_skip_reload_iff demoEnv demoSt ImageId.hw_config 100 256
      (by decide) (by decide)⟩

/-- C7: a dependent image identifier outside the fixed set
(secure-OS, next-stage, hardware-config, secure-OS-config) that carries an
fconf override makes the loop body return `-EINVAL` (-22). -/
theorem fw_config_unknown_dep_einval (e : ResolverEnv) (st : BootState)
    (id : ImageId) (a s : ℕ) (h1 : id ∉ fwConfigDeps)
    (hc : e.config_info id = some (a, s)) :
    (dep_step e id st).2 = some (-22) := by
  cases id <;>
    first
      | exact absurd (by decide) h1
      | simp [dep_step, hc]

/-- Witness for `fw_config_unknown_dep_einval` at the aggregate config
identifier itself. -/
theorem fw_config_unknown_dep_einval_witness :
    (ImageId.fw_config ∉ fwConfigDeps ∧
      demoEnv.config_info ImageId.fw_config = some (7, 7)) ∧
    (dep_step demoEnv ImageId.fw_config demoSt).2 = some (-22) :=
  ⟨⟨by decide, by decide⟩,
    fw_config_unknown_dep_einval demoEnv demoSt ImageId.fw_config 7 7
      (by decide) (by decide)⟩

/-- C8: in the aggregate fw-config branch with an fconf override `(a, s)`
for the next-stage image, its final entry program-counter is the sentinel
0 when resuming with retained memory, and the override base `a`
otherwise. -/
theorem fw_config_bl33_pc (e : ResolverEnv) (st : BootState) (a s : ℕ)
    (hc : e.config_info ImageId.bl33 = some (a, s)) :
    ∃ st1, bl2_plat_handle_post_image_load e ImageId.fw_config st =
        some (0, st1, []) ∧
      (getNode st1 ImageId.bl33).ep_info.pc =
        (if e.wakeup_ddr_sr = true then 0 else a) := by
  have hrun := run_deps_fw e st
  refine ⟨_, by simp only [bl2_plat_handle_post_image_load]; rw [hrun], ?_⟩
  rw [dep_step_frame e ImageId.tos_fw_config ImageId.bl33 _ (by decide)
      (by decide) (by decide),
    dep_step_frame e ImageId.hw_config ImageId.bl33 _ (by decide)
      (by decide) (by decide),
    dep_step_bl33_pc e _ a s hc]

/-- Witness for `fw_config_bl33_pc` on the warm-resume demo environment:
the next-stage program counter becomes the sentinel 0. -/
theorem fw_config_bl33_pc_witness :
    demoEnv.config_info ImageId.bl33 = some (3221225472, 1048576) ∧
    (∃ st1,
      bl2_plat_handle_post_image_load demoEnv ImageId.fw_config demoSt =
        some (0, st1, []) ∧
      (getNode st1 ImageId.bl33).ep_info.pc =
        (if demoEnv.wakeup_ddr_sr = true then 0 else 3221225472)) :=
  ⟨by decide,
    fw_config_bl33_pc demoEnv demoSt 3221225472 1048576 (by decide)⟩

/-- C6: secure-OS image, OP-TEE header recognized, warm resume, recovered
entry point inside backup SRAM: the resolver returns 0, its only effect is
gating the backup-memory clock, it rewrites only the secure-OS program
counter (to the recovered entry) and leaves every base/size field of the
secure-OS, unpaged and paged descriptors unchanged. -/
theorem bl32_warm_backupsram_frame (e : ResolverEnv) (st : BootState)
    (hep : ℕ) (hhdr : e.optee_header_ep = some hep)
    (hwk : e.wakeup_ddr_sr = true)
    (hin : addr_inside_backupsram e.consts e.optee_ep_saved = true) :
    ∃ st1, bl2_plat_handle_post_image_load e ImageId.bl32 st =
        some (0, st1, [ResolverEvent.clkEnableBkpsram]) ∧
      (getNode st1 ImageId.bl32).image_info =
        (getNode st ImageId.bl32).image_info ∧
      getNode st1 ImageId.bl32_extra1 = getNode st ImageId.bl32_extra1 ∧
      getNode st1 ImageId.bl32_extra2 = getNode st ImageId.bl32_extra2 ∧
      (getNode st1 ImageId.bl32).ep_info.pc = e.optee_ep_saved := by
  refine ⟨setNode st ImageId.bl32
      { getNode st ImageId.bl32 with ep_info :=
        { (getNode st ImageId.bl32).ep_info with
          pc := e.optee_ep_saved } }, ?_, ?_, ?_, ?_, ?_⟩ <;>
    simp [bl2_plat_handle_post_image_load, hhdr, hwk, hin, getNode,
      setNode]

/-- Witness for `bl32_warm_backupsram_frame` on the spec's scenario
(backup memory [0x40000000, 0x40010000), recovered entry 0x40001000). -/
theorem bl32_warm_backupsram_frame_witness :
    (warmOpteeEnv.optee_header_ep = some 123 ∧
      warmOpteeEnv.wakeup_ddr_sr = true ∧
      addr_inside_backupsram warmOpteeEnv.consts
        warmOpteeEnv.optee_ep_saved = true) ∧
    (∃ st1,
      bl2_plat_handle_post_image_load warmOpteeEnv ImageId.bl32 demoSt =
        some (0, st1, [ResolverEvent.clkEnableBkpsram]) ∧
      (getNode st1 ImageId.bl32).image_info =
        (getNode demoSt ImageId.bl32).image_info ∧
      getNode st1 ImageId.bl32_extra1 =
        getNode demoSt ImageId.bl32_extra1 ∧
      getNode st1 ImageId.bl32_extra2 =
        getNode demoSt ImageId.bl32_extra2 ∧
      (getNode st1 ImageId.bl32).ep_info.pc =
        warmOpteeEnv.optee_ep_saved) :=
  ⟨⟨rfl, rfl, by decide⟩,
    bl32_warm_backupsram_frame warmOpteeEnv demoSt 123 rfl rfl (by decide)⟩

/-- A cold-boot resolver environment whose loaded BL32 is a plain image. -/
def overflowEnv : ResolverEnv :=
  ⟨demoConsts, false, fun _ => none, 0, none, 0, fun _ _ _ => none⟩

/-- A node whose declared maximum size is 2^31. -/
def halfNode : MemParams := ⟨⟨0, 2147483648, false⟩, ⟨0, 0, 0, 0, 0⟩⟩

/-- A table where the secure-OS and secure-OS-config maximum sizes are
each 2^31, so their 32-bit sum wraps to 0. -/
def overflowSt : BootState :=
  ⟨demoNode, halfNode, demoNode, demoNode, demoNode, demoNode, halfNode⟩

/-- The table `overflowSt` becomes after the plain-BL32 branch. -/
def overflowResultSt : BootState :=
  setNode overflowSt ImageId.bl32 ⟨⟨0, 0, false⟩, ⟨0, 0, 0, 0, 0⟩⟩

/-- C9, counterexample: the C statement
`image_max_size += tos_fw_mem_params->image_info.image_max_size` adds two
`uint32_t` values, so with declared sizes 2^31 and 2^31 the resulting
maximum size is 0, not the mathematical sum 2^32: the claim's "equals the
sum of the two images' declared sizes" is false as stated. -/
theorem bl32_plain_size_overflow_cex :
    bl2_plat_handle_post_image_load overflowEnv ImageId.bl32 overflowSt =
      some (0, overflowResultSt, []) ∧
    (getNode overflowSt ImageId.bl32).image_info.image_max_size +
      (getNode overflowSt ImageId.tos_fw_config).image_info.image_max_size
      = 2 ^ 32 ∧
    (getNode overflowResultSt ImageId.bl32).image_info.image_max_size =
      0 ∧
    (0 : ℕ) ≠ 2 ^ 32 := by
  refine ⟨by decide, by decide, by decide, by decide⟩

/-- C9 (amended): when the secure-OS image parses as a plain
non-self-describing image, the resolver succeeds and the secure-OS
maximum size becomes the sum of the secure-OS and secure-OS-config
declared sizes reduced modulo 2^32 (the plain sum whenever it fits in 32
bits), and entry argument `arg0` ends up 0. -/
theorem bl32_plain_size_sum (e : ResolverEnv) (st : BootState)
    (hplain : e.optee_header_ep = none) :
    ∃ st1 evs, bl2_plat_handle_post_image_load e ImageId.bl32 st =
        some (0, st1, evs) ∧
      (getNode st1 ImageId.bl32).image_info.image_max_size =
        ((getNode st ImageId.bl32).image_info.image_max_size +
          (getNode st ImageId.tos_fw_config).image_info.image_max_size) %
          2 ^ 32 ∧
      (getNode st1 ImageId.bl32).ep_info.arg0 = 0 := by
  refine ⟨setNode st ImageId.bl32
      { getNode st ImageId.bl32 with
        image_info := { (getNode st ImageId.bl32).image_info with
          image_max_size :=
            ((getNode st ImageId.bl32).image_info.image_max_size +
              (getNode st ImageId.tos_fw_config).image_info.image_max_size)
              % 2 ^ 32 },
        ep_info := { (getNode st ImageId.bl32).ep_info with
          pc := (getNode st ImageId.bl32).image_info.image_base,
          arg0 := 0 } },
    (if e.consts.ddr_base ≤ (getNode st ImageId.bl32).image_info.image_base
      then [ResolverEvent.contextSaveBl2Param] else []),
    ?_, ?_, ?_⟩ <;>
    simp [bl2_plat_handle_post_image_load, hplain, getNode, setNode]

/-- Witness for `bl32_plain_size_sum` on the warm-resume demo
environment and all-zero table. -/
theorem bl32_plain_size_sum_witness :
    demoEnv.optee_header_ep = none ∧
    (∃ st1 evs,
      bl2_plat_handle_post_image_load demoEnv ImageId.bl32 demoSt =
        some (0, st1, evs) ∧
      (getNode st1 ImageId.bl32).image_info.image_max_size =
        ((getNode demoSt ImageId.bl32).image_info.image_max_size +
          (getNode demoSt
            ImageId.tos_fw_config).image_info.image_max_size) % 2 ^ 32 ∧
      (getNode st1 ImageId.bl32).ep_info.arg0 = 0) :=
  ⟨rfl, bl32_plain_size_sum demoEnv demoSt rfl⟩

end Stm32Bl2
